import Mathlib

/-!
Verification of the WebScrcpy mobile-mirroring engine.

This file gives a shallow embedding, in Lean 4, of the parts of the
repository that the specification's claims are about:

* `ADBManager` (src/adb_manager.py): device-listing parsing
  (`get_devices`), routing-table IP extraction (`get_device_ip`) and
  TCP connection (`connect_to_device`).
* `Scrcpy` (src/scrcpy.py): port probing (`find_available_port`),
  forward setup/cleanup (`setup_adb_forward`, `cleanup_adb_forward`)
  and the session start/stop protocol (`scrcpy_start`, `scrcpy_stop`).
* `DeviceManager` (src/app.py): the device registry and its
  `add_device` / `start_mirror` / `stop_mirror` / `remove_device`
  operations.

Python strings are modelled as `List Char`.  External effects
(subprocess invocations, socket binds and connects, thread starts) are
modelled by explicit environment records that say which external step
succeeds, and by a log of the bridge commands that each operation
issues.  Stateful code is modelled by explicit state passing.  Worker
threads are joined with a bounded timeout in the source; the sequential
model renders a join as completing (the receive loops exit once the
stop flag is set and their sockets are shut down).
-/

/-- Python strings are modelled as lists of characters. -/
abbrev Str := List Char

/-! ### Python str.split semantics -/

/-- Helper for `splitOn`: returns the chunk currently being built and
the list of finished chunks after it. -/
def splitOnAux (sep : Char) : Str → Str × List Str
  | [] => ([], [])
  | c :: rest =>
    let r := splitOnAux sep rest
    if c = sep then ([], r.1 :: r.2) else (c :: r.1, r.2)

/-- Python's `s.split(sep)` for a one-character separator: always
returns at least one (possibly empty) chunk, and empty chunks between
adjacent separators are kept. -/
def splitOn (sep : Char) (s : Str) : List Str :=
  (splitOnAux sep s).1 :: (splitOnAux sep s).2

/-- Python's substring operator `needle in hay`: some contiguous run of
`hay` equals `needle`. -/
def isSubstringOf (needle : Str) : Str → Bool
  | [] => needle.isEmpty
  | c :: rest => needle.isPrefixOf (c :: rest) || isSubstringOf needle rest

/-! ### ADBManager (src/adb_manager.py) -/

/-- One parsed entry of the bridge's device listing, as built by
`ADBManager.get_devices`: the dict with keys id, state and is_tcp. -/
structure DeviceEntry where
  id : Str
  state : Str
  is_tcp : Bool
deriving DecidableEq, Repr

/-- The loop body of `ADBManager.get_devices` for one listing line:
blank lines (no non-whitespace character) are skipped, and a line that
splits on tab into at least two parts yields one entry whose `is_tcp`
flag records whether the id contains a colon. -/
def parseDeviceLine (line : Str) : Option DeviceEntry :=
  if line.any (fun c => !c.isWhitespace) then
    match splitOn '\t' line with
    | p0 :: p1 :: _ => some ⟨p0, p1, p0.contains ':'⟩
    | _ => none
  else none

/-- Embedding of `ADBManager.get_devices`.  The argument is the result
of `_run_adb_command(["devices"])`: a success flag and the captured
output.  On tool failure the empty list is returned; otherwise the
first (header) line is skipped and every remaining line is parsed by
`parseDeviceLine`. -/
def get_devices (runResult : Bool × Str) : List DeviceEntry :=
  if runResult.1 = false then []
  else ((splitOn '\n' runResult.2).drop 1).filterMap parseDeviceLine

/-- A well-formed listing line as the claim describes it: the id,
a tab, the state. -/
def renderLine (l : Str × Str) : Str := l.1 ++ '\t' :: l.2

/-- A device listing built from a header line and id/state lines, each
line preceded by a newline. -/
def renderListing (header : Str) (lines : List (Str × Str)) : Str :=
  header ++ lines.foldr (fun l acc => '\n' :: (renderLine l ++ acc)) []

/-- The mutable state of an `ADBManager` instance: the recorded active
remote endpoint and the TCP-mode flag. -/
structure ADBState where
  current_device : Option Str
  is_tcp_mode : Bool
deriving DecidableEq, Repr

/-- Embedding of `ADBManager.connect_to_device`.  `runResult` is the
result of `_run_adb_command(["connect", address])`.  The source returns
success exactly when the invocation succeeded (exit zero) and the
lowercased output contains "connected" or "already connected"; on
success it records `ip:port` as the active endpoint and sets TCP mode,
otherwise the state is unchanged.  The tool output is returned verbatim
in both cases. -/
def connect_to_device (runResult : Bool × Str) (ip : Str) (port : Nat)
    (st : ADBState) : (Bool × Str) × ADBState :=
  let address := ip ++ ':' :: (toString port).toList
  let out_lower := runResult.2.map Char.toLower
  if runResult.1 &&
      (isSubstringOf "connected".toList out_lower ||
       isSubstringOf "already connected".toList out_lower) then
    ((true, runResult.2), { st with current_device := some address, is_tcp_mode := true })
  else
    ((false, runResult.2), st)

/-- The literal text that the routing-table pattern of
`ADBManager.get_device_ip` requires before the IP group: "src ". -/
def srcPat : Str := ['s', 'r', 'c', ' ']

/-- One step of the regex `\d+\.` with a greedy digit group: take the
maximal run of digits (which must be non-empty) and then require a
literal dot; returns the consumed text (digits plus dot) and the rest.
Because a digit and a dot are disjoint, maximal munch is exactly the
backtracking semantics of `\d+\.`. -/
def matchNumDot (s : Str) : Option (Str × Str) :=
  let ds := s.takeWhile Char.isDigit
  let rest := s.dropWhile Char.isDigit
  if ds.isEmpty then none
  else
    match rest with
    | c :: rest2 => if c = '.' then some (ds ++ ['.'], rest2) else none
    | [] => none

/-- Matching of the group `(\d+\.\d+\.\d+\.\d+)` at the start of `s`:
three digits-dot blocks followed by a final non-empty digit run; returns
the matched group text. -/
def matchIp (s : Str) : Option Str :=
  match matchNumDot s with
  | none => none
  | some (a, s1) =>
    match matchNumDot s1 with
    | none => none
    | some (b, s2) =>
      match matchNumDot s2 with
      | none => none
      | some (c, s3) =>
        let ds := s3.takeWhile Char.isDigit
        if ds.isEmpty then none else some (a ++ b ++ c ++ ds)

/-- `re.search` applied to the pattern of `get_device_ip`: try every
position from left to right; at the first position where the literal
"src " is followed by a full IP-shaped group, return that group. -/
def searchSrcIp : Str → Option Str
  | [] => none
  | c :: rest =>
    match (if srcPat.isPrefixOf (c :: rest) then matchIp ((c :: rest).drop 4) else none) with
    | some ip => some ip
    | none => searchSrcIp rest

/-- Embedding of `ADBManager.get_device_ip`.  The argument is the
result of `_run_adb_command(["shell", "ip", "route"])`.  On tool
failure the source returns None; otherwise it returns the first group
matched by `re.search(r'src (digits.digits.digits.digits)', output)`,
or None when there is no match. -/
def get_device_ip (runResult : Bool × Str) : Option Str :=
  if runResult.1 = false then none
  else searchSrcIp runResult.2

/-- The shape of the regex group `\d+\.\d+\.\d+\.\d+`: four non-empty
digit runs separated by dots. -/
def ipShape (w : Str) : Prop :=
  ∃ d1 d2 d3 d4 : Str,
    d1 ≠ [] ∧ d2 ≠ [] ∧ d3 ≠ [] ∧ d4 ≠ [] ∧
    (∀ c ∈ d1 ++ d2 ++ d3 ++ d4, c.isDigit = true) ∧
    w = d1 ++ '.' :: d2 ++ '.' :: d3 ++ '.' :: d4

/-! ### Scrcpy session engine (src/scrcpy.py) -/

/-- The fixed base of the local-port probe, `BASE_PORT = 6666`. -/
def BASE_PORT : Nat := 6666

/-- The lifecycle of one of the session's three socket handles: not yet
created, created (a live object, possibly unconnected), connected and
live, or shut down and closed. -/
inductive SockSt where
  | absent
  | opened
  | live
  | closed
deriving DecidableEq, Repr

/-- The bridge commands an operation issues, logged so that claims
about side effects ("no push/forward/process calls") can be stated. -/
inductive Cmd where
  | devicesQuery
  | push
  | forwardCreate (port : Nat)
  | forwardRemove (port : Nat)
  | launchProcess
deriving DecidableEq, Repr

/-- The mutable state of a `Scrcpy` instance: the three sockets, the
four worker threads (modelled by an is-alive flag), the remote
capture-server process (`none` = never launched, `some true` = running,
`some false` = terminated), the target device id, the allocated local
port and the stop flag. -/
structure ScrcpyState where
  video_socket : SockSt
  audio_socket : SockSt
  control_socket : SockSt
  android_thread : Bool
  video_thread : Bool
  audio_thread : Bool
  control_thread : Bool
  android_process : Option Bool
  device_id : Option Str
  local_port : Option Nat
  stop : Bool
deriving DecidableEq, Repr

/-- The state of a `Scrcpy` instance right after `__init__`. -/
def initialScrcpy : ScrcpyState :=
  { video_socket := SockSt.absent
    audio_socket := SockSt.absent
    control_socket := SockSt.absent
    android_thread := false
    video_thread := false
    audio_thread := false
    control_thread := false
    android_process := none
    device_id := none
    local_port := none
    stop := false }

/-- Python truthiness of the `local_port` attribute (`None` and `0`
are falsy): this is the guard `if self.local_port:`. -/
def truthy : Option Nat → Bool
  | none => false
  | some n => decide (n ≠ 0)

/-- Embedding of `Scrcpy.cleanup_adb_forward`.  When `local_port` is
truthy the removal command is attempted; whether that command fails or
raises (`removeRaises`), the `except` clause swallows the exception and
the `finally` clause clears `local_port`, so both branches produce the
same state and the function never raises.  When `local_port` is not
set, nothing is done at all. -/
def cleanup_adb_forward (removeRaises : Bool) (st : ScrcpyState) :
    ScrcpyState × List Cmd :=
  if truthy st.local_port then
    if removeRaises then
      ({ st with local_port := none }, [Cmd.forwardRemove (st.local_port.getD 0)])
    else
      ({ st with local_port := none }, [Cmd.forwardRemove (st.local_port.getD 0)])
  else (st, [])

/-- The loop body of `Scrcpy.find_available_port`: `i` is the current
loop index and the fuel is the number of remaining attempts.  The
environment `bindable` says which local ports the probe bind succeeds
on. -/
def findAvailablePortAux (bindable : Nat → Bool) (start_port : Nat) :
    Nat → Nat → Option Nat
  | _, 0 => none
  | i, fuel + 1 =>
    if bindable (start_port + i) then some (start_port + i)
    else findAvailablePortAux bindable start_port (i + 1) fuel

/-- Embedding of `Scrcpy.find_available_port`: probe
`start_port, start_port+1, ...` for at most `max_attempts` ports and
return the first that binds; `none` models the `PortExhausted`
exception raised when every attempt fails. -/
def find_available_port (bindable : Nat → Bool) (start_port max_attempts : Nat) :
    Option Nat :=
  findAvailablePortAux bindable start_port 0 max_attempts

/-- The Python exceptions that can escape `Scrcpy.scrcpy_start`: the
`PortExhausted` exception raised by `find_available_port`, and the
`CalledProcessError` raised by the `check=True` forward-creation
command in `setup_adb_forward`. -/
inductive StartExn where
  | portExhausted
  | forwardFailed
deriving DecidableEq, Repr

/-- The possible outcomes of `Scrcpy.scrcpy_start`: returned `True`,
returned `False`, or an exception propagated out uncaught. -/
inductive StartResult where
  | started
  | failedFalse
  | raised (e : StartExn)
deriving DecidableEq, Repr

/-- The external environment of one run of `scrcpy_start`: the stdout
of the device-listing command, which external steps succeed (push
transfer, port binds, forward creation, the three channel connects,
worker starts) and whether the forward-removal command raises. -/
structure StartEnv where
  devicesOutput : Str
  pushOk : Bool
  bindable : Nat → Bool
  forwardOk : Bool
  videoConnectOk : Bool
  audioConnectOk : Bool
  controlConnectOk : Bool
  threadsStartOk : Bool
  removeRaises : Bool

/-- Embedding of `Scrcpy.setup_adb_forward`: clean up any stale
forward, allocate a port (recorded in `local_port` before the forward
command runs), then create the forward with `check=True` — a non-zero
exit raises, with `local_port` left set. -/
def setup_adb_forward (env : StartEnv) (st : ScrcpyState) :
    Option StartExn × ScrcpyState × List Cmd :=
  let r0 := cleanup_adb_forward env.removeRaises st
  match find_available_port env.bindable BASE_PORT 100 with
  | none => (some StartExn.portExhausted, r0.1, r0.2)
  | some p =>
    let st1 := { r0.1 with local_port := some p }
    if env.forwardOk then (none, st1, r0.2 ++ [Cmd.forwardCreate p])
    else (some StartExn.forwardFailed, st1, r0.2 ++ [Cmd.forwardCreate p])

/-- Socket shutdown-and-close as performed by `scrcpy_stop`: every
error is swallowed, an existing socket object (open, live or already
closed) ends closed and an absent one stays absent. -/
def closeSock : SockSt → SockSt
  | SockSt.absent => SockSt.absent
  | _ => SockSt.closed

/-- Embedding of `Scrcpy.scrcpy_stop`: set the stop flag, shut down and
close each present socket (errors swallowed), join the three receive
workers, terminate the remote process if one was launched, join the
launcher worker, and finally remove the forward and clear the port.
Every step is nil-safe and swallows its errors, so the function always
returns normally. -/
def scrcpy_stop (removeRaises : Bool) (st : ScrcpyState) :
    ScrcpyState × List Cmd :=
  let st1 := { st with stop := true }
  let st2 := { st1 with
    video_socket := closeSock st1.video_socket
    audio_socket := closeSock st1.audio_socket
    control_socket := closeSock st1.control_socket }
  let st3 := { st2 with video_thread := false, audio_thread := false, control_thread := false }
  let st4 := { st3 with android_process := st3.android_process.map (fun _ => false) }
  let st5 := { st4 with android_thread := false }
  cleanup_adb_forward removeRaises st5

/-- Embedding of `Scrcpy.scrcpy_start`.  The bridge commands issued are
logged in order.  Control flow follows the source: the device check is
the substring test `"device" in stdout`; a push failure returns
`False`; `setup_adb_forward` may raise; then the launcher worker and
remote process are started and the three channels are connected in
order video, audio, control, each socket object being created before
its connect; any exception in the channel/worker block is caught,
`scrcpy_stop` runs, and `False` is returned. -/
def scrcpy_start (env : StartEnv) (st0 : ScrcpyState) :
    StartResult × ScrcpyState × List Cmd :=
  let st := { st0 with stop := false }
  if isSubstringOf "device".toList env.devicesOutput = false then
    (StartResult.failedFalse, st, [Cmd.devicesQuery])
  else if env.pushOk = false then
    (StartResult.failedFalse, st, [Cmd.devicesQuery, Cmd.push])
  else
    match setup_adb_forward env st with
    | (some e, st1, c1) => (StartResult.raised e, st1, Cmd.devicesQuery :: Cmd.push :: c1)
    | (none, st1, c1) =>
      let st2 := { st1 with android_thread := true, android_process := some true }
      let cmds := Cmd.devicesQuery :: Cmd.push :: (c1 ++ [Cmd.launchProcess])
      let st3 := { st2 with video_socket := SockSt.opened }
      if env.videoConnectOk = false then
        let r := scrcpy_stop env.removeRaises st3
        (StartResult.failedFalse, r.1, cmds ++ r.2)
      else
        let st4 := { st3 with video_socket := SockSt.live, audio_socket := SockSt.opened }
        if env.audioConnectOk = false then
          let r := scrcpy_stop env.removeRaises st4
          (StartResult.failedFalse, r.1, cmds ++ r.2)
        else
          let st5 := { st4 with audio_socket := SockSt.live, control_socket := SockSt.opened }
          if env.controlConnectOk = false then
            let r := scrcpy_stop env.removeRaises st5
            (StartResult.failedFalse, r.1, cmds ++ r.2)
          else
            let st6 := { st5 with control_socket := SockSt.live }
            if env.threadsStartOk = false then
              let r := scrcpy_stop env.removeRaises st6
              (StartResult.failedFalse, r.1, cmds ++ r.2)
            else
              let st7 := { st6 with video_thread := true, audio_thread := true, control_thread := true }
              (StartResult.started, st7, cmds)

/-- A socket handle that holds no live or open resource. -/
def sockReleased : SockSt → Bool
  | SockSt.absent => true
  | SockSt.closed => true
  | _ => false

/-- A remote-process handle that is not running. -/
def processNotLive : Option Bool → Bool
  | some true => false
  | _ => true

/-- The `Idle` state of the specification's session state machine: no
open or live socket, no running worker, no running remote process, no
allocated port. -/
def isIdle (st : ScrcpyState) : Bool :=
  sockReleased st.video_socket && sockReleased st.audio_socket &&
  sockReleased st.control_socket &&
  !st.video_thread && !st.audio_thread && !st.control_thread &&
  !st.android_thread && processNotLive st.android_process &&
  st.local_port.isNone

/-! ### DeviceManager registry (src/app.py) -/

/-- One value of the `DeviceManager.devices` dict: the per-device dict
with keys id, state, is_mirroring and scrcpy (the mirroring session
object, or `None`). -/
structure DMEntry where
  id : Str
  state : Str
  is_mirroring : Bool
  scrcpy : Option ScrcpyState
deriving DecidableEq, Repr

/-- The `DeviceManager.devices` dict, modelled as an insertion-ordered
association list keyed by device id. -/
abbrev DeviceMap := List (Str × DMEntry)

/-- Dict membership/lookup: the entry stored under a device id. -/
def dmLookup : DeviceMap → Str → Option DMEntry
  | [], _ => none
  | (k, v) :: rest, device_id =>
    if k = device_id then some v else dmLookup rest device_id

/-- Dict assignment for an existing key: replace the entry stored under
the device id, leaving every other pair unchanged. -/
def dmUpdate : DeviceMap → Str → DMEntry → DeviceMap
  | [], _, _ => []
  | (k0, v) :: rest, device_id, e =>
    (if k0 = device_id then (device_id, e) else (k0, v)) :: dmUpdate rest device_id e

/-- Dict deletion: remove the pairs stored under the device id. -/
def dmErase (m : DeviceMap) (device_id : Str) : DeviceMap :=
  m.filter (fun p => !decide (p.1 = device_id))

/-- Embedding of `DeviceManager.add_device`: a new entry with
`is_mirroring = False` and `scrcpy = None` is added only when the id is
not yet present; returns whether it was added. -/
def add_device (m : DeviceMap) (device_id state : Str) : DeviceMap × Bool :=
  match dmLookup m device_id with
  | none => (m ++ [(device_id, ⟨device_id, state, false, none⟩)], true)
  | some _ => (m, false)

/-- Embedding of `DeviceManager.start_mirror`: only for a known device
that is not already mirroring, a fresh `Scrcpy` is created with the
device id set and `scrcpy_start` runs; the session is recorded (and
`is_mirroring` set) only when start returns `True`.  The first
component models an exception propagating out of `scrcpy_start` (the
registry is left unchanged in that case); the last component is the
returned boolean. -/
def start_mirror (env : StartEnv) (m : DeviceMap) (device_id : Str) :
    Option StartExn × DeviceMap × Bool :=
  match dmLookup m device_id with
  | none => (none, m, false)
  | some e =>
    if e.is_mirroring then (none, m, false)
    else
      match scrcpy_start env { initialScrcpy with device_id := some device_id } with
      | (StartResult.started, st1, _) =>
        (none, dmUpdate m device_id { e with scrcpy := some st1, is_mirroring := true }, true)
      | (StartResult.failedFalse, _, _) => (none, m, false)
      | (StartResult.raised ex, _, _) => (some ex, m, false)

/-- Embedding of `DeviceManager.stop_mirror`: only for a known device
that is mirroring, `scrcpy_stop` is called on the recorded session
(`scrcpy_stop` always returns normally) and then the record is cleared
unconditionally: `scrcpy` is set back to `None` and `is_mirroring` to
`False`. -/
def stop_mirror (m : DeviceMap) (device_id : Str) : DeviceMap × Bool :=
  match dmLookup m device_id with
  | none => (m, false)
  | some e =>
    if e.is_mirroring then
      (dmUpdate m device_id { e with scrcpy := none, is_mirroring := false }, true)
    else (m, false)

/-- Embedding of `DeviceManager.remove_device`: if the device is known,
its session (if any) is stopped and the entry is deleted. -/
def remove_device (m : DeviceMap) (device_id : Str) : DeviceMap :=
  match dmLookup m device_id with
  | none => m
  | some _ => dmErase m device_id

/-- The registry invariant of the specification: an entry holds a
session object exactly when its device is marked as mirroring. -/
def dmInvariant (m : DeviceMap) : Bool :=
  m.all (fun p => p.2.scrcpy.isSome == p.2.is_mirroring)

/-- One registry operation, for stating properties about arbitrary
operation sequences. -/
inductive DMOp where
  | add (device_id state : Str)
  | start (env : StartEnv) (device_id : Str)
  | stopMir (device_id : Str)
  | remove (device_id : Str)

/-- The registry state after performing one operation. -/
def applyDMOp (m : DeviceMap) : DMOp → DeviceMap
  | DMOp.add device_id state => (add_device m device_id state).1
  | DMOp.start env device_id => (start_mirror env m device_id).2.1
  | DMOp.stopMir device_id => (stop_mirror m device_id).1
  | DMOp.remove device_id => remove_device m device_id

/-- The registry state after performing a sequence of operations. -/
def runDMOps (m : DeviceMap) (ops : List DMOp) : DeviceMap :=
  ops.foldl applyDMOp m

/-- A concrete partially-started session state: live video socket,
launched remote process and an allocated port. -/
def partialSession : ScrcpyState :=
  { initialScrcpy with
      video_socket := SockSt.live
      android_process := some true
      local_port := some 6666 }

/-- A concrete environment in which every external step succeeds. -/
def allOkEnv (devOut : Str) : StartEnv :=
  { devicesOutput := devOut
    pushOk := true
    bindable := fun _ => true
    forwardOk := true
    videoConnectOk := true
    audioConnectOk := true
    controlConnectOk := true
    threadsStartOk := true
    removeRaises := false }

/-- A device listing whose header is followed by one connected device. -/
def listingWithDevice : Str := "List of devices attached\nABC123\tdevice\n".toList

/-- The header-only device listing an unconnected bridge prints: no
device line follows the header. -/
def headerOnlyListing : Str := "List of devices attached\n".toList

/-- An environment in which everything succeeds except the control
channel connection. -/
def chanFailEnv : StartEnv :=
  { allOkEnv listingWithDevice with controlConnectOk := false }

/-- An environment in which everything succeeds except the
forward-creation command, which exits non-zero. -/
def fwdFailEnv : StartEnv :=
  { allOkEnv listingWithDevice with forwardOk := false }

/-! ## Helper lemmas -/

/-- `cleanup_adb_forward` changes no field other than `local_port`. -/
theorem cleanup_only_port (r : Bool) (st : ScrcpyState) :
    (cleanup_adb_forward r st).1.video_socket = st.video_socket ∧
    (cleanup_adb_forward r st).1.audio_socket = st.audio_socket ∧
    (cleanup_adb_forward r st).1.control_socket = st.control_socket ∧
    (cleanup_adb_forward r st).1.android_process = st.android_process ∧
    (cleanup_adb_forward r st).1.android_thread = st.android_thread := by
  simp only [cleanup_adb_forward]
  split
  · split <;> exact ⟨rfl, rfl, rfl, rfl, rfl⟩
  · exact ⟨rfl, rfl, rfl, rfl, rfl⟩

theorem sockReleased_closeSock (s : SockSt) : sockReleased (closeSock s) = true := by
  cases s <;> rfl

theorem processNotLive_map (o : Option Bool) :
    processNotLive (o.map (fun _ => false)) = true := by
  cases o <;> rfl

/-- Whatever state `scrcpy_stop` is applied to, the state it returns is
`Idle`: all sockets released, all workers joined, the remote process
not running and the port cleared.  The hypothesis excludes the
unreachable port value `0`, which Python's truthiness gate in
`cleanup_adb_forward` would treat like `None`; ports are only ever
allocated from `BASE_PORT = 6666` upwards. -/
theorem stop_isIdle (r : Bool) (st : ScrcpyState) (h : st.local_port ≠ some 0) :
    isIdle (scrcpy_stop r st).1 = true := by
  match hlp : st.local_port with
  | none =>
    simp [scrcpy_stop, cleanup_adb_forward, truthy, hlp, isIdle,
      sockReleased_closeSock, processNotLive_map]
  | some n =>
    have hn : n ≠ 0 := fun h0 => h (by rw [hlp, h0])
    cases r <;>
      simp [scrcpy_stop, cleanup_adb_forward, truthy, hlp, hn, isIdle,
        sockReleased_closeSock, processNotLive_map]

/-! ## Claims -/

/-- C10: `cleanup_adb_forward` always clears `local_port` (even when
the removal command fails or raises), issues no removal command when
`local_port` is already unset, and a repeated call is a no-op; it never
raises (it is a total function of its state: every error of the removal
command is swallowed by the `except` clause and the `finally` clause
runs unconditionally).  The hypothesis excludes the unreachable value
`some 0`: ports are only ever allocated from `BASE_PORT = 6666`
upwards, and Python's truthiness test treats `0` like `None`. -/
theorem C10_cleanup_releases_port (raises : Bool) (st : ScrcpyState)
    (h : st.local_port ≠ some 0) :
    (cleanup_adb_forward raises st).1.local_port = none ∧
    (st.local_port = none → cleanup_adb_forward raises st = (st, [])) ∧
    cleanup_adb_forward raises ((cleanup_adb_forward raises st).1) =
      ((cleanup_adb_forward raises st).1, []) := by
  match hlp : st.local_port with
  | none => simp [cleanup_adb_forward, truthy, hlp]
  | some n =>
    have hn : n ≠ 0 := by
      intro h0
      exact h (by rw [hlp, h0])
    cases raises <;> simp [cleanup_adb_forward, truthy, hlp, hn]

/-- Witness for C10 at a concrete state holding port 6666, with the
removal command raising. -/
theorem C10_cleanup_releases_port_witness :
    (cleanup_adb_forward true { initialScrcpy with local_port := some 6666 }).1.local_port = none :=
  (C10_cleanup_releases_port true { initialScrcpy with local_port := some 6666 }
    (by decide)).1

/-- C4: for every session state (never started, partially started,
running, or already stopped), two consecutive `scrcpy_stop` calls leave
the session in `Idle` after each call, with every resource (sockets,
workers, remote process, forward port) released; neither call raises —
the embedding of `scrcpy_stop` is a total function because the source
wraps every fallible step in an error-swallowing handler. -/
theorem C4_stop_idempotent_idle (r1 r2 : Bool) (st : ScrcpyState)
    (h : st.local_port ≠ some 0) :
    isIdle (scrcpy_stop r1 st).1 = true ∧
    isIdle (scrcpy_stop r2 (scrcpy_stop r1 st).1).1 = true := by
  have h1 := stop_isIdle r1 st h
  have h2 : (scrcpy_stop r1 st).1.local_port ≠ some 0 := by
    have : (scrcpy_stop r1 st).1.local_port = none := by
      have := h1
      simp only [isIdle, Bool.and_eq_true, Option.isNone_iff_eq_none] at this
      exact this.2
    simp [this]
  exact ⟨h1, stop_isIdle r2 (scrcpy_stop r1 st).1 h2⟩

/-- Witness for C4 at a concrete partially-started session state:
a live video socket, a launched remote process and an allocated port. -/
theorem C4_stop_idempotent_idle_witness :
    isIdle (scrcpy_stop false partialSession).1 = true ∧
    isIdle (scrcpy_stop true (scrcpy_stop false partialSession).1).1 = true :=
  C4_stop_idempotent_idle false true partialSession (by decide)

theorem findAux_skip (bindable : Nat → Bool) (base : Nat) :
    ∀ (B i fuel : Nat), (∀ j, j < B → bindable (base + (i + j)) = false) →
      bindable (base + (i + B)) = true → B < fuel →
      findAvailablePortAux bindable base i fuel = some (base + (i + B))
  | 0, i, fuel + 1, _, hfound, _ => by
    simp only [findAvailablePortAux]
    rw [show base + (i + 0) = base + i from by omega] at hfound
    simp [hfound]
  | B + 1, i, fuel + 1, hocc, hfound, hlt => by
    have h0 : bindable (base + i) = false := by
      have := hocc 0 (by omega)
      rwa [show base + (i + 0) = base + i from by omega] at this
    simp only [findAvailablePortAux, h0]
    rw [if_neg (by simp [h0])]
    have ih := findAux_skip bindable base B (i + 1) fuel
      (fun j hj => by
        have := hocc (j + 1) (by omega)
        rwa [show base + (i + (j + 1)) = base + (i + 1 + j) from by omega] at this)
      (by rwa [show base + (i + 1 + B) = base + (i + (B + 1)) from by omega])
      (by omega)
    rw [ih, show base + (i + 1 + B) = base + (i + (B + 1)) from by omega]

theorem findAux_none (bindable : Nat → Bool) (base : Nat) :
    ∀ (fuel i : Nat), (∀ j, j < fuel → bindable (base + (i + j)) = false) →
      findAvailablePortAux bindable base i fuel = none
  | 0, _, _ => rfl
  | fuel + 1, i, hocc => by
    have h0 : bindable (base + i) = false := by
      have := hocc 0 (by omega)
      rwa [show base + (i + 0) = base + i from by omega] at this
    simp only [findAvailablePortAux, h0]
    rw [if_neg (by simp [h0])]
    exact findAux_none bindable base fuel (i + 1) (fun j hj => by
      have := hocc (j + 1) (by omega)
      rwa [show base + (i + (j + 1)) = base + (i + 1 + j) from by omega] at this)

/-- C5: if the `B` consecutive ports from the base are occupied and
port `base + B` is bindable within the attempt budget, the allocator
returns exactly `base + B`; and if no port in
`[base, base + max_attempts)` is bindable, it fails (the `none` result
models the `PortExhausted` exception). -/
theorem C5_port_probe (bindable : Nat → Bool) (base B maxA : Nat) :
    ((∀ j, j < B → bindable (base + j) = false) → bindable (base + B) = true →
      B < maxA → find_available_port bindable base maxA = some (base + B)) ∧
    ((∀ j, j < maxA → bindable (base + j) = false) →
      find_available_port bindable base maxA = none) := by
  constructor
  · intro hocc hfound hlt
    have := findAux_skip bindable base B 0 maxA
      (fun j hj => by simpa using hocc j hj) (by simpa using hfound) hlt
    simpa [find_available_port] using this
  · intro hocc
    exact findAux_none bindable base maxA 0 (fun j hj => by simpa using hocc j hj)

/-- Witness for C5: with ports 6666, 6667, 6668 occupied and every
later port free, the allocator returns 6669 (the spec's scenario); with
every port occupied it reports exhaustion. -/
theorem C5_port_probe_witness :
    find_available_port (fun p => decide (6669 ≤ p)) 6666 100 = some 6669 ∧
    find_available_port (fun _ => false) 6666 100 = none := by
  constructor
  · have h := (C5_port_probe (fun p => decide (6669 ≤ p)) 6666 3 100).1
      (by decide) (by decide) (by decide)
    exact h
  · exact (C5_port_probe (fun _ => false) 6666 0 100).2 (fun j _ => rfl)

/-- A port returned by the probe is at least the base port (so in
particular it is never 0). -/
theorem findAux_ge (bindable : Nat → Bool) (base : Nat) :
    ∀ (fuel i p : Nat), findAvailablePortAux bindable base i fuel = some p →
      base ≤ p
  | fuel + 1, i, p, h => by
    by_cases hb : bindable (base + i) = true
    · simp only [findAvailablePortAux, hb, if_true, Option.some.injEq] at h
      omega
    · simp only [findAvailablePortAux, hb, if_false, Bool.not_eq_true] at h
      rw [if_neg (by simp [hb])] at h
      exact findAux_ge bindable base fuel (i + 1) p h

/-- C1: whenever the device check, the push and the forward creation
succeed but one of the three channel connections (or the starting of
the receive workers) fails, `scrcpy_start` returns `False` after
invoking the full stop sequence, so the state it leaves behind is
`Idle`: no live or open socket, no allocated port (the forward was
removed), no running remote process and no running worker. -/
theorem C1_failed_channel_start_cleans_up (env : StartEnv) (st0 : ScrcpyState) (p : Nat)
    (hdev : isSubstringOf "device".toList env.devicesOutput = true)
    (hpush : env.pushOk = true)
    (hport : find_available_port env.bindable BASE_PORT 100 = some p)
    (hfwd : env.forwardOk = true)
    (hfail : env.videoConnectOk = false ∨ env.audioConnectOk = false ∨
      env.controlConnectOk = false ∨ env.threadsStartOk = false) :
    (scrcpy_start env st0).1 = StartResult.failedFalse ∧
    isIdle (scrcpy_start env st0).2.1 = true := by
  have hp : p ≠ 0 := by
    have := findAux_ge env.bindable BASE_PORT 100 0 p hport
    simp only [BASE_PORT] at this
    omega
  have hstop : ∀ st : ScrcpyState, st.local_port = some p →
      isIdle (scrcpy_stop env.removeRaises st).1 = true := by
    intro st hlp
    refine stop_isIdle _ _ ?_
    rw [hlp]
    simp [hp]
  cases hv : env.videoConnectOk <;> cases ha : env.audioConnectOk <;>
      cases hc : env.controlConnectOk <;> cases ht : env.threadsStartOk <;>
      simp [hv, ha, hc, ht] at hfail
  all_goals
    simp only [scrcpy_start, setup_adb_forward, hdev, hpush, hport, hfwd, hv, ha, hc, ht]
  all_goals
    simp only [Bool.true_eq_false, if_true, if_false, ite_true, ite_false]
  all_goals exact ⟨trivial, hstop _ rfl⟩

/-- Witness for C1: a fresh session whose control-channel connection
fails ends in `Idle` with the start reported as failed. -/
theorem C1_failed_channel_start_cleans_up_witness :
    (scrcpy_start chanFailEnv initialScrcpy).1 = StartResult.failedFalse ∧
    isIdle (scrcpy_start chanFailEnv initialScrcpy).2.1 = true :=
  C1_failed_channel_start_cleans_up chanFailEnv initialScrcpy 6666
    (by decide) rfl rfl rfl (Or.inr (Or.inr (Or.inl rfl)))

/-- C2 (code bug): the device-presence check of `scrcpy_start` is the
substring test `"device" in stdout`, and the header line that the
bridge tool always prints — "List of devices attached" — itself
contains the substring "device".  So on a listing in which the target
device does not appear at all (header only), the check still passes and
the start proceeds: the push, the forward creation and the remote
process launch are all issued, and the start even reports success,
instead of failing with `DeviceNotFound` with no side effects. -/
theorem C2_device_check_vacuous :
    (scrcpy_start (allOkEnv headerOnlyListing) initialScrcpy).1 = StartResult.started ∧
    Cmd.push ∈ (scrcpy_start (allOkEnv headerOnlyListing) initialScrcpy).2.2 ∧
    Cmd.forwardCreate 6666 ∈ (scrcpy_start (allOkEnv headerOnlyListing) initialScrcpy).2.2 ∧
    Cmd.launchProcess ∈ (scrcpy_start (allOkEnv headerOnlyListing) initialScrcpy).2.2 := by
  decide

/-- C3 counterexample: with every step fine but the forward-creation
command exiting non-zero, `scrcpy_start` does not return a failure
value — the `check=True` subprocess call raises and the exception
propagates out uncaught — and the allocated local port is still
recorded (not released) when the failure surfaces. -/
theorem C3_counterexample :
    (scrcpy_start fwdFailEnv initialScrcpy).1 = StartResult.raised StartExn.forwardFailed ∧
    (scrcpy_start fwdFailEnv initialScrcpy).2.1.local_port = some 6666 := by
  decide

/-- C3 (amended): when the forward-creation command exits non-zero the
`CalledProcessError` raised in `setup_adb_forward` propagates out of
`scrcpy_start` uncaught; no stop sequence runs, the allocated local
port remains recorded in `local_port`, and the session's sockets and
remote-process handle are exactly as they were before the call — so a
caller does need to invoke the stop sequence itself after this
failure. -/
theorem C3_forward_failure_raises_uncleaned (env : StartEnv) (st0 : ScrcpyState) (p : Nat)
    (hdev : isSubstringOf "device".toList env.devicesOutput = true)
    (hpush : env.pushOk = true)
    (hport : find_available_port env.bindable BASE_PORT 100 = some p)
    (hfwd : env.forwardOk = false) :
    (scrcpy_start env st0).1 = StartResult.raised StartExn.forwardFailed ∧
    (scrcpy_start env st0).2.1.local_port = some p ∧
    (scrcpy_start env st0).2.1.video_socket = st0.video_socket ∧
    (scrcpy_start env st0).2.1.android_process = st0.android_process := by
  simp only [scrcpy_start, setup_adb_forward, hdev, hpush, hport, hfwd]
  simp only [Bool.true_eq_false, if_true, if_false, ite_true, ite_false]
  refine ⟨rfl, rfl, ?_, ?_⟩
  · exact (cleanup_only_port env.removeRaises { st0 with stop := false }).1
  · exact (cleanup_only_port env.removeRaises { st0 with stop := false }).2.2.2.1

/-- Witness for C3 (amended) at the concrete forward-failure
environment. -/
theorem C3_forward_failure_raises_uncleaned_witness :
    (scrcpy_start fwdFailEnv partialSession).1 = StartResult.raised StartExn.forwardFailed ∧
    (scrcpy_start fwdFailEnv partialSession).2.1.local_port = some 6666 ∧
    (scrcpy_start fwdFailEnv partialSession).2.1.video_socket = partialSession.video_socket ∧
    (scrcpy_start fwdFailEnv partialSession).2.1.android_process = partialSession.android_process :=
  C3_forward_failure_raises_uncleaned fwdFailEnv partialSession 6666
    (by decide) rfl rfl rfl

/-- C6 counterexample: the claimed equivalence quantifies over every
tool output alone, but the source also requires the invocation itself
to have succeeded.  When the command reports failure while its captured
output does contain "connected", `connect_to_device` returns failure
even though the lowercased output contains the keyword. -/
theorem C6_counterexample :
    isSubstringOf "connected".toList ("connected".toList.map Char.toLower) = true ∧
    (connect_to_device (false, "connected".toList) "10.0.0.1".toList 5555
      { current_device := none, is_tcp_mode := false }).1.1 = false := by
  decide

/-- C6 (amended): `connect_to_device` returns success iff the tool
invocation succeeded (exit zero) and the lowercased output contains
"connected" or "already connected"; the output is carried back verbatim
in both cases; on success `ip:port` is recorded as the active remote
endpoint (and TCP mode set), and on failure the manager state is
unchanged. -/
theorem C6_connect_success_criteria (runResult : Bool × Str) (ip : Str) (port : Nat)
    (st : ADBState) :
    ((connect_to_device runResult ip port st).1.1 = true ↔
      (runResult.1 = true ∧
        (isSubstringOf "connected".toList (runResult.2.map Char.toLower) ||
         isSubstringOf "already connected".toList (runResult.2.map Char.toLower)) = true)) ∧
    (connect_to_device runResult ip port st).1.2 = runResult.2 ∧
    ((connect_to_device runResult ip port st).1.1 = true →
      (connect_to_device runResult ip port st).2.current_device =
        some (ip ++ ':' :: (toString port).toList) ∧
      (connect_to_device runResult ip port st).2.is_tcp_mode = true) ∧
    ((connect_to_device runResult ip port st).1.1 = false →
      (connect_to_device runResult ip port st).2 = st) := by
  simp only [connect_to_device]
  split_ifs with hcond
  · rw [Bool.and_eq_true] at hcond
    obtain ⟨h1, h2⟩ := hcond
    rw [Bool.or_eq_true] at h2
    simp [h1]
    simpa using h2
  · rw [Bool.and_eq_true] at hcond
    simp [hcond]
    intro hA
    have hB : ¬((isSubstringOf "connected".toList (runResult.2.map Char.toLower) ||
        isSubstringOf "already connected".toList (runResult.2.map Char.toLower)) = true) :=
      fun hOr => hcond ⟨hA, hOr⟩
    rw [Bool.or_eq_true] at hB
    push_neg at hB
    exact ⟨by simpa using hB.1, by simpa using hB.2⟩

/-- Witness for C6 (amended): a successful invocation whose output
contains "connected" yields success and records the endpoint. -/
theorem C6_connect_success_criteria_witness :
    (connect_to_device (true, "connected to 10.0.0.1:5555".toList) "10.0.0.1".toList 5555
      { current_device := none, is_tcp_mode := false }).1.1 = true :=
  (C6_connect_success_criteria (true, "connected to 10.0.0.1:5555".toList)
    "10.0.0.1".toList 5555 { current_device := none, is_tcp_mode := false }).1.mpr
    ⟨rfl, by decide⟩

theorem dmInvariant_iff (m : DeviceMap) :
    dmInvariant m = true ↔ ∀ p ∈ m, p.2.scrcpy.isSome = p.2.is_mirroring := by
  rw [dmInvariant, List.all_eq_true]
  constructor
  · intro h p hp
    exact beq_iff_eq.mp (h p hp)
  · intro h p hp
    exact beq_iff_eq.mpr (h p hp)

theorem dmInvariant_update (k : Str) (e : DMEntry)
    (he : e.scrcpy.isSome = e.is_mirroring) :
    ∀ (m : DeviceMap), dmInvariant m = true → dmInvariant (dmUpdate m k e) = true
  | [], _ => rfl
  | (k0, v) :: rest, h => by
    rw [dmInvariant_iff] at h
    have hrest : dmInvariant rest = true :=
      (dmInvariant_iff rest).mpr (fun p hp => h p (List.mem_cons_of_mem _ hp))
    have hv : v.scrcpy.isSome = v.is_mirroring := h (k0, v) (List.mem_cons_self _ _)
    have htail := dmInvariant_update k e he rest hrest
    simp only [dmUpdate]
    rw [dmInvariant_iff]
    intro p hp
    rcases List.mem_cons.mp hp with hp | hp
    · by_cases hk : k0 = k
      · rw [if_pos hk] at hp
        rw [hp]
        exact he
      · rw [if_neg hk] at hp
        rw [hp]
        exact hv
    · exact (dmInvariant_iff _).mp htail p hp

theorem dmInvariant_applyDMOp (m : DeviceMap) (op : DMOp)
    (h : dmInvariant m = true) : dmInvariant (applyDMOp m op) = true := by
  cases op with
  | add device_id state =>
    cases hlk : dmLookup m device_id with
    | none =>
      simp only [applyDMOp, add_device, hlk]
      rw [dmInvariant_iff] at h ⊢
      intro p hp
      rw [List.mem_append] at hp
      rcases hp with hp | hp
      · exact h p hp
      · rw [List.mem_singleton] at hp
        rw [hp]
        rfl
    | some e =>
      simp only [applyDMOp, add_device, hlk]
      exact h
  | start env device_id =>
    cases hlk : dmLookup m device_id with
    | none =>
      simp only [applyDMOp, start_mirror, hlk]
      exact h
    | some e =>
      simp only [applyDMOp, start_mirror, hlk]
      by_cases hm : e.is_mirroring = true
      · rw [if_pos hm]
        exact h
      · rw [if_neg hm]
        rcases hs : scrcpy_start env { initialScrcpy with device_id := some device_id }
          with ⟨r, st1, cmds⟩
        cases r with
        | started =>
          simp only [hs]
          exact dmInvariant_update device_id _ rfl m h
        | failedFalse =>
          simp only [hs]
          exact h
        | raised ex =>
          simp only [hs]
          exact h
  | stopMir device_id =>
    cases hlk : dmLookup m device_id with
    | none =>
      simp only [applyDMOp, stop_mirror, hlk]
      exact h
    | some e =>
      simp only [applyDMOp, stop_mirror, hlk]
      by_cases hm : e.is_mirroring = true
      · rw [if_pos hm]
        exact dmInvariant_update device_id _ rfl m h
      · rw [if_neg hm]
        exact h
  | remove device_id =>
    cases hlk : dmLookup m device_id with
    | none =>
      simp only [applyDMOp, remove_device, hlk]
      exact h
    | some e =>
      simp only [applyDMOp, remove_device, hlk]
      rw [dmInvariant_iff] at h ⊢
      intro p hp
      rw [dmErase, List.mem_filter] at hp
      exact h p hp.1

theorem dmInvariant_runDMOps :
    ∀ (ops : List DMOp) (m : DeviceMap), dmInvariant m = true →
      dmInvariant (runDMOps m ops) = true
  | [], _, h => h
  | op :: ops, m, h =>
    dmInvariant_runDMOps ops (applyDMOp m op) (dmInvariant_applyDMOp m op h)

theorem dmLookup_update (e : DMEntry) :
    ∀ (m : DeviceMap) (k : Str) (e0 : DMEntry), dmLookup m k = some e0 →
      dmLookup (dmUpdate m k e) k = some e
  | [], k, e0, hlk => by simp [dmLookup] at hlk
  | (k0, v) :: rest, k, e0, hlk => by
    simp only [dmUpdate]
    by_cases hk : k0 = k
    · rw [if_pos hk]
      simp [dmLookup]
    · rw [if_neg hk]
      simp only [dmLookup, if_neg hk]
      simp only [dmLookup, if_neg hk] at hlk
      exact dmLookup_update e rest k e0 hlk

/-- C7: for every registry state satisfying it and every sequence of
`add_device` / `start_mirror` / `stop_mirror` / `remove_device`
operations, the invariant "an entry holds a session object iff its
device is marked mirroring" is preserved; `start_mirror` rejects an
unknown or already-mirroring device without touching the registry,
leaves the registry unchanged whenever it reports failure (it records
the session only when the underlying start succeeds), and `stop_mirror`
on a mirroring device clears the recorded session and the mirroring
flag. -/
theorem C7_registry_invariant :
    (∀ (ops : List DMOp) (m : DeviceMap), dmInvariant m = true →
      dmInvariant (runDMOps m ops) = true) ∧
    (∀ (env : StartEnv) (m : DeviceMap) (device_id : Str),
      dmLookup m device_id = none →
      start_mirror env m device_id = (none, m, false)) ∧
    (∀ (env : StartEnv) (m : DeviceMap) (device_id : Str) (e : DMEntry),
      dmLookup m device_id = some e → e.is_mirroring = true →
      start_mirror env m device_id = (none, m, false)) ∧
    (∀ (env : StartEnv) (m : DeviceMap) (device_id : Str),
      (start_mirror env m device_id).2.2 = false →
      (start_mirror env m device_id).2.1 = m) ∧
    (∀ (m : DeviceMap) (device_id : Str) (e : DMEntry),
      dmLookup m device_id = some e → e.is_mirroring = true →
      dmLookup (stop_mirror m device_id).1 device_id =
        some { e with scrcpy := none, is_mirroring := false }) := by
  refine ⟨dmInvariant_runDMOps, ?_, ?_, ?_, ?_⟩
  · intro env m device_id hlk
    simp only [start_mirror, hlk]
  · intro env m device_id e hlk hm
    simp only [start_mirror, hlk, hm, if_true, ite_true]
  · intro env m device_id hfalse
    revert hfalse
    cases hlk : dmLookup m device_id with
    | none =>
      simp only [start_mirror, hlk]
      exact fun _ => trivial
    | some e =>
      simp only [start_mirror, hlk]
      by_cases hm : e.is_mirroring = true
      · rw [if_pos hm]
        exact fun _ => rfl
      · rw [if_neg hm]
        rcases hs : scrcpy_start env { initialScrcpy with device_id := some device_id }
          with ⟨r, st1, cmds⟩
        cases r with
        | started =>
          simp only [hs]
          exact fun hc => absurd hc (by simp)
        | failedFalse =>
          simp only [hs]
          exact fun _ => trivial
        | raised ex =>
          simp only [hs]
          exact fun _ => trivial
  · intro m device_id e hlk hm
    simp only [stop_mirror, hlk, hm, if_true, ite_true]
    exact dmLookup_update _ m device_id e hlk

theorem splitOnAux_no_sep (sep : Char) :
    ∀ (xs : Str), sep ∉ xs → splitOnAux sep xs = (xs, [])
  | [], _ => rfl
  | c :: rest, h => by
    have hc : ¬(c = sep) := fun hh => h (hh ▸ List.mem_cons_self c rest)
    simp only [splitOnAux,
      splitOnAux_no_sep sep rest (fun hm => h (List.mem_cons_of_mem _ hm)), if_neg hc]

theorem splitOnAux_append (sep : Char) :
    ∀ (xs ys : Str), sep ∉ xs →
      splitOnAux sep (xs ++ sep :: ys) =
        (xs, (splitOnAux sep ys).1 :: (splitOnAux sep ys).2)
  | [], ys, _ => by
    simp [splitOnAux]
  | c :: xs, ys, h => by
    have hc : ¬(c = sep) := fun hh => h (hh ▸ List.mem_cons_self c xs)
    have ih := splitOnAux_append sep xs ys (fun hm => h (List.mem_cons_of_mem _ hm))
    simp only [List.cons_append, splitOnAux, if_neg hc, List.append_eq, ih]

theorem splitOn_renderListing :
    ∀ (lines : List (Str × Str)) (hdr : Str), '\n' ∉ hdr →
      (∀ l ∈ lines, '\n' ∉ renderLine l) →
      splitOn '\n' (renderListing hdr lines) = hdr :: lines.map renderLine
  | [], hdr, hh, _ => by
    show splitOn '\n' (hdr ++ []) = [hdr]
    rw [List.append_nil]
    simp only [splitOn, splitOnAux_no_sep '\n' hdr hh]
  | l :: ls, hdr, hh, hl => by
    have ih := splitOn_renderListing ls (renderLine l) (hl l (List.mem_cons_self _ _))
      (fun x hx => hl x (List.mem_cons_of_mem _ hx))
    have hsplit := splitOnAux_append '\n' hdr (renderListing (renderLine l) ls) hh
    show splitOn '\n' (hdr ++ '\n' :: renderListing (renderLine l) ls) =
      hdr :: (l :: ls).map renderLine
    simp only [splitOn, hsplit, List.map_cons]
    simp only [splitOn] at ih
    exact congrArg (fun t => hdr :: t) ih

theorem splitOn_renderLine (l : Str × Str) (h1 : '\t' ∉ l.1) (h2 : '\t' ∉ l.2) :
    splitOn '\t' (renderLine l) = [l.1, l.2] := by
  simp only [renderLine, splitOn, splitOnAux_append '\t' l.1 l.2 h1,
    splitOnAux_no_sep '\t' l.2 h2]

theorem parseDeviceLine_renderLine (l : Str × Str)
    (h1 : '\t' ∉ l.1) (h2 : '\t' ∉ l.2)
    (hany : l.1.any (fun c => !c.isWhitespace) = true) :
    parseDeviceLine (renderLine l) = some ⟨l.1, l.2, l.1.contains ':'⟩ := by
  have hany2 : (renderLine l).any (fun c => !c.isWhitespace) = true := by
    simp only [renderLine, List.any_append, hany, Bool.true_or]
  simp only [parseDeviceLine, hany2, if_true, ite_true, splitOn_renderLine l h1 h2]

theorem filterMap_parseDeviceLine :
    ∀ (lines : List (Str × Str)),
      (∀ l ∈ lines, '\t' ∉ l.1 ∧ '\t' ∉ l.2 ∧
        l.1.any (fun c => !c.isWhitespace) = true) →
      (lines.map renderLine).filterMap parseDeviceLine =
        lines.map (fun l => DeviceEntry.mk l.1 l.2 (l.1.contains ':'))
  | [], _ => rfl
  | l :: ls, h => by
    obtain ⟨h1, h2, h3⟩ := h l (List.mem_cons_self _ _)
    simp only [List.map_cons, List.filterMap_cons,
      parseDeviceLine_renderLine l h1 h2 h3]
    rw [filterMap_parseDeviceLine ls (fun x hx => h x (List.mem_cons_of_mem _ hx))]

/-- C8: for every tool output consisting of a header line followed by
`N` well-formed id-tab-state lines (ids and states free of newline and
tab, ids containing a non-whitespace character), `get_devices` returns
exactly `N` entries carrying each line's id and state with
`is_tcp` true exactly when the id contains a colon; it never raises (it
is a total function), and on tool failure it returns the empty list for
every output. -/
theorem C8_listing_parse (hdr : Str) (lines : List (Str × Str))
    (hh : '\n' ∉ hdr)
    (hw : ∀ l ∈ lines, '\n' ∉ l.1 ∧ '\n' ∉ l.2 ∧ '\t' ∉ l.1 ∧ '\t' ∉ l.2 ∧
      l.1.any (fun c => !c.isWhitespace) = true) :
    get_devices (true, renderListing hdr lines) =
      lines.map (fun l => DeviceEntry.mk l.1 l.2 (l.1.contains ':')) ∧
    (get_devices (true, renderListing hdr lines)).length = lines.length ∧
    ∀ out : Str, get_devices (false, out) = [] := by
  have hnl : ∀ l ∈ lines, '\n' ∉ renderLine l := by
    intro l hl hmem
    obtain ⟨a1, a2, _, _, _⟩ := hw l hl
    rcases List.mem_append.mp hmem with hm | hm
    · exact a1 hm
    · rcases List.mem_cons.mp hm with hm | hm
      · exact absurd hm (by decide)
      · exact a2 hm
  have hmain : get_devices (true, renderListing hdr lines) =
      lines.map (fun l => DeviceEntry.mk l.1 l.2 (l.1.contains ':')) := by
    simp only [get_devices]
    rw [if_neg (by simp)]
    rw [splitOn_renderListing lines hdr hh hnl]
    simp only [List.drop_succ_cons, List.drop_zero]
    exact filterMap_parseDeviceLine lines
      (fun l hl => ⟨(hw l hl).2.2.1, (hw l hl).2.2.2.1, (hw l hl).2.2.2.2⟩)
  refine ⟨hmain, ?_, fun out => rfl⟩
  rw [hmain, List.length_map]

/-- Witness for C8: the spec's scenario — one line `ABC123 <tab> device`
after the header — parses to the single expected non-network entry. -/
theorem C8_listing_parse_witness :
    get_devices (true, renderListing "List of devices attached".toList
      [("ABC123".toList, "device".toList)]) =
      [DeviceEntry.mk "ABC123".toList "device".toList false] :=
  (C8_listing_parse "List of devices attached".toList
    [("ABC123".toList, "device".toList)] (by decide) (by decide)).1.trans (by decide)

/-- Witness for C7: a concrete add / start / stop / remove sequence on
the empty registry keeps the invariant. -/
theorem C7_registry_invariant_witness :
    dmInvariant (runDMOps []
      [DMOp.add "ABC123".toList "device".toList,
       DMOp.start (allOkEnv listingWithDevice) "ABC123".toList,
       DMOp.stopMir "ABC123".toList,
       DMOp.remove "ABC123".toList]) = true :=
  C7_registry_invariant.1
    [DMOp.add "ABC123".toList "device".toList,
     DMOp.start (allOkEnv listingWithDevice) "ABC123".toList,
     DMOp.stopMir "ABC123".toList,
     DMOp.remove "ABC123".toList] [] rfl

theorem takeWhile_all_prepend (p : Char → Bool) :
    ∀ (d : Str) (x : Char) (r : Str), (∀ c ∈ d, p c = true) → p x = false →
      (d ++ x :: r).takeWhile p = d ∧ (d ++ x :: r).dropWhile p = x :: r
  | [], x, r, _, hx => by
    simp [List.takeWhile_cons, List.dropWhile_cons, hx]
  | c :: d, x, r, hall, hx => by
    have hc : p c = true := hall c (List.mem_cons_self _ _)
    have ih := takeWhile_all_prepend p d x r
      (fun a ha => hall a (List.mem_cons_of_mem _ ha)) hx
    simp [List.takeWhile_cons, List.dropWhile_cons, hc, ih.1, ih.2]

theorem matchNumDot_sound (s a r : Str) (h : matchNumDot s = some (a, r)) :
    (∃ d : Str, d ≠ [] ∧ (∀ c ∈ d, c.isDigit = true) ∧ a = d ++ ['.']) ∧
    s = a ++ r := by
  simp only [matchNumDot] at h
  by_cases he : (s.takeWhile Char.isDigit).isEmpty = true
  · rw [if_pos he] at h
    exact absurd h (by simp)
  · rw [if_neg he] at h
    cases hd : s.dropWhile Char.isDigit with
    | nil =>
      rw [hd] at h
      exact absurd h (by simp)
    | cons x rest2 =>
      rw [hd] at h
      dsimp only at h
      by_cases hx : x = '.'
      · rw [if_pos hx] at h
        rw [Option.some.injEq, Prod.mk.injEq] at h
        obtain ⟨ha, hr⟩ := h
        have hsplit := List.takeWhile_append_dropWhile Char.isDigit s
        rw [hd] at hsplit
        refine ⟨⟨s.takeWhile Char.isDigit, ?_, ?_, ha.symm⟩, ?_⟩
        · intro hnil
          rw [hnil] at he
          exact he rfl
        · exact fun c hc => List.mem_takeWhile_imp hc
        · rw [← hsplit, ← ha, ← hr, hx]
          simp
      · rw [if_neg hx] at h
        exact absurd h (by simp)

theorem matchIp_sound (s ip : Str) (h : matchIp s = some ip) :
    ipShape ip ∧ ∃ rest, s = ip ++ rest := by
  simp only [matchIp] at h
  cases h1 : matchNumDot s with
  | none =>
    rw [h1] at h
    exact absurd h (by simp)
  | some ar =>
    rcases ar with ⟨a, s1⟩
    rw [h1] at h
    dsimp only at h
    cases h2 : matchNumDot s1 with
    | none =>
      rw [h2] at h
      exact absurd h (by simp)
    | some br =>
      rcases br with ⟨b, s2⟩
      rw [h2] at h
      dsimp only at h
      cases h3 : matchNumDot s2 with
      | none =>
        rw [h3] at h
        exact absurd h (by simp)
      | some cr =>
        rcases cr with ⟨c, s3⟩
        rw [h3] at h
        dsimp only at h
        by_cases he : ((s3.takeWhile Char.isDigit).isEmpty) = true
        · rw [if_pos he] at h
          exact absurd h (by simp)
        · rw [if_neg he] at h
          rw [Option.some.injEq] at h
          obtain ⟨⟨d1, hne1, hdig1, ha⟩, hs1⟩ := matchNumDot_sound s a s1 h1
          obtain ⟨⟨d2, hne2, hdig2, hb⟩, hs2⟩ := matchNumDot_sound s1 b s2 h2
          obtain ⟨⟨d3, hne3, hdig3, hc⟩, hs3⟩ := matchNumDot_sound s2 c s3 h3
          have hsplit := List.takeWhile_append_dropWhile Char.isDigit s3
          have hne4 : s3.takeWhile Char.isDigit ≠ [] := by
            intro hnil
            rw [hnil] at he
            exact he rfl
          have hdig4 : ∀ x ∈ s3.takeWhile Char.isDigit, x.isDigit = true :=
            fun x hx => List.mem_takeWhile_imp hx
          constructor
          · refine ⟨d1, d2, d3, s3.takeWhile Char.isDigit, hne1, hne2, hne3, hne4, ?_, ?_⟩
            · intro x hx
              rcases List.mem_append.mp hx with hx | hx
              · rcases List.mem_append.mp hx with hx | hx
                · rcases List.mem_append.mp hx with hx | hx
                  · exact hdig1 x hx
                  · exact hdig2 x hx
                · exact hdig3 x hx
              · exact hdig4 x hx
            · rw [← h, ha, hb, hc]
              simp
          · refine ⟨s3.dropWhile Char.isDigit, ?_⟩
            rw [hs1, hs2, hs3, ← h, ← hsplit]
            simp

theorem matchNumDot_complete (d : Str) (hne : d ≠ []) (hd : ∀ c ∈ d, c.isDigit = true)
    (t : Str) : matchNumDot (d ++ '.' :: t) = some (d ++ ['.'], t) := by
  have htw := takeWhile_all_prepend Char.isDigit d '.' t hd (by decide)
  simp only [matchNumDot, htw.1, htw.2]
  rw [if_neg ?hne2]
  case hne2 =>
    intro habs
    cases hd0 : d with
    | nil => exact hne hd0
    | cons c0 d0 =>
      rw [hd0] at habs
      exact absurd habs (by simp)
  simp

theorem matchIp_complete (w : Str) (hw : ipShape w) (post : Str) :
    (matchIp (w ++ post)).isSome = true := by
  obtain ⟨d1, d2, d3, d4, h1, h2, h3, h4, hdig, hshape⟩ := hw
  have hd1 : ∀ c ∈ d1, c.isDigit = true :=
    fun c hc => hdig c (by simp [List.mem_append, hc])
  have hd2 : ∀ c ∈ d2, c.isDigit = true :=
    fun c hc => hdig c (by simp [List.mem_append, hc])
  have hd3 : ∀ c ∈ d3, c.isDigit = true :=
    fun c hc => hdig c (by simp [List.mem_append, hc])
  have hd4 : ∀ c ∈ d4, c.isDigit = true :=
    fun c hc => hdig c (by simp [List.mem_append, hc])
  rw [hshape]
  simp only [List.append_assoc, List.cons_append, matchIp,
    matchNumDot_complete d1 h1 hd1, matchNumDot_complete d2 h2 hd2,
    matchNumDot_complete d3 h3 hd3]
  cases hd0 : d4 with
  | nil => exact absurd hd0 h4
  | cons c4 t4 =>
    have hc4 : c4.isDigit = true := hd4 c4 (hd0 ▸ List.mem_cons_self _ _)
    simp [List.takeWhile_cons, hc4]

theorem searchSrcIp_sound : ∀ (s ip : Str), searchSrcIp s = some ip →
    ∃ u v, s = u ++ srcPat ++ (ip ++ v) ∧ ipShape ip
  | [], ip, h => by simp [searchSrcIp] at h
  | c :: rest, ip, h => by
    simp only [searchSrcIp] at h
    cases hpre : srcPat.isPrefixOf (c :: rest) with
    | false =>
      rw [hpre] at h
      rw [if_neg (by simp)] at h
      dsimp only at h
      obtain ⟨u, v, hs, hip⟩ := searchSrcIp_sound rest ip h
      exact ⟨c :: u, v, by rw [hs]; simp, hip⟩
    | true =>
      obtain ⟨t, ht⟩ := List.isPrefixOf_iff_prefix.mp hpre
      rw [hpre] at h
      rw [if_pos rfl] at h
      cases hm : matchIp ((c :: rest).drop 4) with
      | none =>
        rw [hm] at h
        dsimp only at h
        obtain ⟨u, v, hs, hip⟩ := searchSrcIp_sound rest ip h
        exact ⟨c :: u, v, by rw [hs]; simp, hip⟩
      | some ip2 =>
        rw [hm] at h
        dsimp only at h
        rw [Option.some.injEq] at h
        have hdrop : (c :: rest).drop 4 = t := by
          rw [← ht, show (4 : Nat) = srcPat.length from rfl, List.drop_left]
        rw [hdrop] at hm
        obtain ⟨hshape, rest2, hrest2⟩ := matchIp_sound t ip2 hm
        refine ⟨[], rest2, ?_, h ▸ hshape⟩
        rw [← ht, hrest2, h]
        simp

theorem searchSrcIp_cons (c : Char) (rest : Str) :
    searchSrcIp (c :: rest) =
      match (if srcPat.isPrefixOf (c :: rest) then matchIp ((c :: rest).drop 4)
             else none) with
      | some ip => some ip
      | none => searchSrcIp rest := rfl

theorem searchSrcIp_complete :
    ∀ (u w v : Str), ipShape w →
      (searchSrcIp (u ++ (srcPat ++ (w ++ v)))).isSome = true
  | [], w, v, hw => by
    rw [List.nil_append]
    show (searchSrcIp ('s' :: 'r' :: 'c' :: ' ' :: (w ++ v))).isSome = true
    obtain ⟨ip2, hip2⟩ := Option.isSome_iff_exists.mp (matchIp_complete w hw v)
    have hip3 : matchIp (('s' :: 'r' :: 'c' :: ' ' :: (w ++ v)).drop 4) = some ip2 := hip2
    have hpre : srcPat.isPrefixOf ('s' :: 'r' :: 'c' :: ' ' :: (w ++ v)) = true := by
      simp [srcPat, List.isPrefixOf]
    rw [searchSrcIp_cons]
    simp [hpre, hip2, hip3]
  | c :: u, w, v, hw => by
    have ih := searchSrcIp_complete u w v hw
    rw [List.cons_append, searchSrcIp_cons]
    cases hm : (if srcPat.isPrefixOf (c :: (u ++ (srcPat ++ (w ++ v)))) = true then
        matchIp ((c :: (u ++ (srcPat ++ (w ++ v)))).drop 4) else none) with
    | some ip2 => rfl
    | none => exact ih

/-- C9: the concrete scenario — a routing dump containing
`src 192.168.1.42` yields `192.168.1.42`; soundness — whenever
`get_device_ip` returns an address, the dump contains the literal
"src " immediately followed by that address, which has the shape
`digits.digits.digits.digits` of the pattern's group; completeness —
whenever such a match exists in the dump, `get_device_ip` returns an
address (so it reports not-found, i.e. the `None` of the source, only
when no match exists); and on tool failure it reports not-found for
every output. -/
theorem C9_route_ip_extraction :
    get_device_ip (true, "x src 192.168.1.42 y".toList) = some "192.168.1.42".toList ∧
    (∀ (dump ip : Str), get_device_ip (true, dump) = some ip →
      ∃ u v, dump = u ++ srcPat ++ (ip ++ v) ∧ ipShape ip) ∧
    (∀ (dump : Str), (∃ u w v, dump = u ++ (srcPat ++ (w ++ v)) ∧ ipShape w) →
      (get_device_ip (true, dump)).isSome = true) ∧
    (∀ out : Str, get_device_ip (false, out) = none) := by
  refine ⟨by decide, ?_, ?_, fun out => rfl⟩
  · intro dump ip h
    have h2 : searchSrcIp dump = some ip := h
    exact searchSrcIp_sound dump ip h2
  · intro dump hmatch
    obtain ⟨u, w, v, hdump, hw⟩ := hmatch
    show (searchSrcIp dump).isSome = true
    rw [hdump]
    exact searchSrcIp_complete u w v hw

/-- Witness for C9: the soundness part applied at the concrete dump. -/
theorem C9_route_ip_extraction_witness :
    ∃ u v, "x src 192.168.1.42 y".toList =
      u ++ srcPat ++ ("192.168.1.42".toList ++ v) ∧ ipShape "192.168.1.42".toList :=
  C9_route_ip_extraction.2.1 "x src 192.168.1.42 y".toList "192.168.1.42".toList
    (by decide)
